import Mathlib

/-!
Shallow embedding of the `yamlconfig` Go package (`yamlconfig.go`) and a
verification of the specification's claims about its recursive validator.

Go `reflect.Value`s reaching the validator are modelled by the inductive
`GoValue`.  A struct value carries its field list (`Fields`): each field has
its declared name, its `yamlconfig:"omitempty"` tag (as a `Bool`) and its
value.  A nil pointer of any element type is `vnil`; a non-nil pointer to `v`
is `vptr v`.  Slices, maps and arrays are observed by the validator only
through `Len()`, so they are modelled by their length (`vcoll`).  Float
payloads are observed only through comparison with zero and are modelled by a
rational number.
-/

namespace YamlConfig

mutual

inductive GoValue : Type where
  | vstr (s : String)
  | vint (n : Int)
  | vuint (n : Nat)
  | vfloat (x : Rat)
  | vbool (b : Bool)
  | vcoll (len : Nat)
  | vnil
  | vptr (v : GoValue)
  | vstruct (fs : Fields)
  deriving DecidableEq

inductive Fields : Type where
  | nil
  | cons (name : String) (omitempty : Bool) (v : GoValue) (rest : Fields)
  deriving DecidableEq

end

mutual

/-- `isEmpty` from `yamlconfig.go` (lines 131-157): kind switch of the Go
function, case for case.  A pointer is empty when it is nil or its pointee is
empty; a bool is never empty; a struct is empty when all its fields are. -/
def isEmpty : GoValue → Bool
  | .vnil => true
  | .vptr v => isEmpty v
  | .vstr s => s == ""
  | .vcoll len => len == 0
  | .vint n => n == 0
  | .vuint n => n == 0
  | .vfloat x => x == 0
  | .vbool _ => false
  | .vstruct fs => fieldsEmpty fs

/-- The `reflect.Struct` loop body of `isEmpty`: true iff every field's value
is empty. -/
def fieldsEmpty : Fields → Bool
  | .nil => true
  | .cons _ _ v rest => isEmpty v && fieldsEmpty rest

end

/-- `getNestedStruct` from `yamlconfig.go` (lines 106-116): the struct to
recurse into, for a struct field or a non-nil pointer-to-struct field;
`none` models the zero `reflect.Value`. -/
def getNestedStruct : GoValue → Option Fields
  | .vstruct fs => some fs
  | .vptr (.vstruct fs) => some fs
  | _ => none

/-- `isStructPresent` from `yamlconfig.go` (lines 122-127): for pointers
(nil or not), presence is non-nilness; otherwise presence is non-emptiness. -/
def isStructPresent : GoValue → Bool
  | .vnil => false
  | .vptr _ => true
  | v => !isEmpty v

mutual

/-- `validateStruct` from `yamlconfig.go` (lines 77-102): walk the fields in
declaration order; a required (not omitempty) empty field is reported at
once; otherwise recurse into a present nested struct and propagate its first
error, else continue with the remaining fields. -/
def validateStruct : Fields → Except String Unit
  | .nil => .ok ()
  | .cons name omitempty v rest =>
    if !omitempty && isEmpty v then
      .error ("missing required config item: " ++ name)
    else
      match validateNested v with
      | .error e => .error e
      | .ok _ => validateStruct rest

/-- The nested-struct step of the `validateStruct` loop (lines 91-98):
`if nested := getNestedStruct(field); nested.IsValid() && isStructPresent(field)
\x7b if err := validateStruct(nested); err != nil \x7b return err \x7d \x7d`,
written out by the two shapes for which `getNestedStruct` is valid. -/
def validateNested : GoValue → Except String Unit
  | .vstruct fs =>
    if isStructPresent (.vstruct fs) then validateStruct fs else .ok ()
  | .vptr (.vstruct fs) =>
    if isStructPresent (.vptr (.vstruct fs)) then validateStruct fs else .ok ()
  | _ => .ok ()

end

/-- `validateConfig` from `yamlconfig.go` (lines 56-66): the argument must be
a pointer whose element is a struct, otherwise a usage error is returned
before any field is examined. -/
def validateConfig : GoValue → Except String Unit
  | .vptr (.vstruct fs) => validateStruct fs
  | _ => .error "expected a pointer to a struct, please ensure the input is a struct pointer"

/-- `LoadConfig` from `yamlconfig.go` (lines 30-52).  File opening and YAML
decoding are external collaborators; they enter the model as the results they
hand back (`fileResult`, `decodeResult`, the latter carrying the decoded
configuration value on success).  Each failure is wrapped with the stage's
context prefix exactly as the `fmt.Errorf` calls do. -/
def loadConfig (fileResult : Except String Unit)
    (decodeResult : Except String GoValue) : Except String Unit :=
  match fileResult with
  | .error e => .error ("failed to load config file: " ++ e)
  | .ok _ =>
    match decodeResult with
    | .error e => .error ("failed to decode config file: " ++ e)
    | .ok config =>
      match validateConfig config with
      | .error e => .error ("failed to load the config: " ++ e)
      | .ok _ => .ok ()


/-- Renders a DFS-preorder violation list the way `validateStruct` reports:
the first violation's name wrapped in the error message, or success when the
list is empty. -/
def report : List String → Except String Unit
  | [] => .ok ()
  | n :: _ => .error ("missing required config item: " ++ n)

mutual

/-- Modelled from the spec traversal (section 4.1): the names, in depth-first
pre-order declaration order, of every reachable required field whose value is
empty.  A nested record's fields are visited only when the record is present;
an absent section contributes nothing. -/
def reachableViolations : Fields → List String
  | .nil => []
  | .cons name omitempty v rest =>
    (if !omitempty && isEmpty v then [name] else []) ++
      nestedViolations v ++ reachableViolations rest

/-- The subtree part of `reachableViolations`: a struct or non-nil
pointer-to-struct contributes its fields' violations when present. -/
def nestedViolations : GoValue → List String
  | .vstruct fs =>
    if isStructPresent (.vstruct fs) then reachableViolations fs else []
  | .vptr (.vstruct fs) =>
    if isStructPresent (.vptr (.vstruct fs)) then reachableViolations fs else []
  | _ => []

end

/-- `validateNested` is exactly the source's guarded recursion through
`getNestedStruct` and `isStructPresent`. -/
theorem validateNested_eq_source (v : GoValue) :
    validateNested v =
      match getNestedStruct v with
      | some fs => if isStructPresent v then validateStruct fs else .ok ()
      | none => .ok () := by
  cases v with
  | vptr w => cases w <;> rfl
  | _ => rfl

mutual

/-- The validator returns the first violation of the depth-first pre-order
traversal, or success when there is none. -/
theorem validateStruct_eq_report : ∀ fs : Fields, validateStruct fs = report (reachableViolations fs)
  | .nil => rfl
  | .cons name om v rest => by
    have hv := validateNested_eq_report v
    have hr := validateStruct_eq_report rest
    by_cases h : (!om && isEmpty v) = true
    · simp only [validateStruct, reachableViolations, if_pos h]
      rfl
    · simp only [validateStruct, reachableViolations, if_neg h, List.nil_append]
      rw [hv]
      cases hnv : nestedViolations v with
      | nil => simpa [report] using hr
      | cons n tail => simp [report]

/-- Subtree version of `validateStruct_eq_report`. -/
theorem validateNested_eq_report : ∀ v : GoValue, validateNested v = report (nestedViolations v)
  | .vstr _ => rfl
  | .vint _ => rfl
  | .vuint _ => rfl
  | .vfloat _ => rfl
  | .vbool _ => rfl
  | .vcoll _ => rfl
  | .vnil => rfl
  | .vstruct fs => by
    have hf := validateStruct_eq_report fs
    by_cases h : isStructPresent (.vstruct fs) = true
    · simp only [validateNested, nestedViolations, if_pos h]
      exact hf
    · simp only [validateNested, nestedViolations, if_neg h]
      rfl
  | .vptr w => by
    cases w with
    | vstruct fs =>
      have hf := validateStruct_eq_report fs
      simp only [validateNested, nestedViolations, isStructPresent, if_pos]
      exact hf
    | _ => rfl

end


theorem string_data_append (a b : String) : (a ++ b).data = a.data ++ b.data := rfl

theorem ne_of_data_ne_at (s t : String) (i : Nat)
    (h : s.data[i]? ≠ t.data[i]?) : s ≠ t :=
  fun heq => h (by rw [heq])

theorem wrapped_get (p a : String) (i : Nat) (hip : i < p.data.length) :
    (p ++ a).data[i]? = p.data[i]? := by
  rw [string_data_append, List.getElem?_append, if_pos hip]

/-- Every error `validateStruct` can produce carries the field-naming
message. -/
theorem validateStruct_error_format (fs : Fields) (e : String)
    (h : validateStruct fs = .error e) :
    ∃ n, n ∈ reachableViolations fs ∧ e = "missing required config item: " ++ n := by
  rw [validateStruct_eq_report] at h
  cases hl : reachableViolations fs with
  | nil => rw [hl] at h; exact absurd h (by simp [report])
  | cons n tail =>
    rw [hl] at h
    simp only [report, Except.error.injEq] at h
    exact ⟨n, by simp, h.symm⟩

/-- The validator succeeds exactly when no reachable required field is
empty. -/
theorem validateStruct_ok_iff (fs : Fields) :
    validateStruct fs = .ok () ↔ reachableViolations fs = [] := by
  rw [validateStruct_eq_report]
  cases reachableViolations fs <;> simp [report]

theorem validateStruct_cons_omitempty_ptr (name : String) (fs rest : Fields) :
    validateStruct (.cons name true (.vptr (.vstruct fs)) rest)
      = (validateStruct fs).bind fun _ => validateStruct rest := by
  simp only [validateStruct, Bool.not_true, Bool.false_and, Bool.false_eq_true,
    if_false, validateNested, isStructPresent, if_true]
  cases h : validateStruct fs <;> simp [Except.bind]

theorem validateStruct_cons_omitempty_vnil (name : String) (rest : Fields) :
    validateStruct (.cons name true .vnil rest) = validateStruct rest := by
  simp only [validateStruct, Bool.not_true, Bool.false_and, Bool.false_eq_true,
    if_false, validateNested]


mutual

/-- Modelled from the spec (section 3 data model and section 8, claim C1):
the names, restricted to subtrees whose ancestor sections are present, of
every required leaf field (primitive or container, a nil pointer, or a
pointer to a primitive) that holds its type's default value.  Nested records
and references to records are internal nodes, not leaves; their leaves are
collected only when the section is present (a reference is present iff
non-null, a by-value record iff not fully empty). -/
def reachableDefaultLeaves : Fields → List String
  | .nil => []
  | .cons name omitempty v rest =>
    leafDefaults name omitempty v ++ reachableDefaultLeaves rest

/-- One field's contribution to `reachableDefaultLeaves`. -/
def leafDefaults (name : String) (omitempty : Bool) : GoValue → List String
  | .vstruct fs =>
    if isStructPresent (.vstruct fs) then reachableDefaultLeaves fs else []
  | .vptr (.vstruct fs) => reachableDefaultLeaves fs
  | w => if !omitempty && isEmpty w then [name] else []

end

mutual

/-- Modelled from the spec (section 8, claim C3): the names of every required
leaf field holding its default value, over the whole tree, with no
reachability restriction. -/
def defaultRequiredLeaves : Fields → List String
  | .nil => []
  | .cons name omitempty v rest =>
    allLeafDefaults name omitempty v ++ defaultRequiredLeaves rest

/-- One field's contribution to `defaultRequiredLeaves`. -/
def allLeafDefaults (name : String) (omitempty : Bool) : GoValue → List String
  | .vstruct fs => defaultRequiredLeaves fs
  | .vptr (.vstruct fs) => defaultRequiredLeaves fs
  | w => if !omitempty && isEmpty w then [name] else []

end

mutual

/-- Modelled from the spec emptiness table: "every descendant leaf field is
itself empty, recursively".  Leaves are judged by the table (a boolean leaf
is never empty); a null reference has no descendant leaves; a non-null
reference contributes the leaves of its pointee. -/
def specLeavesEmpty : GoValue → Bool
  | .vstr s => s == ""
  | .vcoll len => len == 0
  | .vint n => n == 0
  | .vuint n => n == 0
  | .vfloat x => x == 0
  | .vbool _ => false
  | .vnil => true
  | .vptr v => specLeavesEmpty v
  | .vstruct fs => specFieldsLeavesEmpty fs

/-- `specLeavesEmpty` over a record's field list. -/
def specFieldsLeavesEmpty : Fields → Bool
  | .nil => true
  | .cons _ _ v rest => specLeavesEmpty v && specFieldsLeavesEmpty rest

end

mutual

/-- A boolean field occurs somewhere among the value's descendants
(descending through non-nil references; a nil reference has none). -/
def hasBool : GoValue → Bool
  | .vbool _ => true
  | .vptr v => hasBool v
  | .vstruct fs => fieldsHaveBool fs
  | _ => false

/-- `hasBool` over a record's field list. -/
def fieldsHaveBool : Fields → Bool
  | .nil => false
  | .cons _ _ v rest => hasBool v || fieldsHaveBool rest

end

/-- The value is a primitive or container in the sense of the spec's data
model: text, integer, unsigned integer, floating point, or container. -/
def isPrimitive : GoValue → Bool
  | .vstr _ => true
  | .vint _ => true
  | .vuint _ => true
  | .vfloat _ => true
  | .vcoll _ => true
  | _ => false

/-- Modelled from the spec: a primitive value equals its type's default
(zero-length text, zero count, numeric zero). -/
def primDefault : GoValue → Bool
  | .vstr s => s == ""
  | .vint n => n == 0
  | .vuint n => n == 0
  | .vfloat x => x == 0
  | .vcoll len => len == 0
  | _ => false

mutual

/-- The code's emptiness predicate coincides with the spec's
all-descendant-leaves-empty reading. -/
theorem isEmpty_eq_specLeavesEmpty : ∀ v : GoValue, isEmpty v = specLeavesEmpty v
  | .vstr _ => rfl
  | .vint _ => rfl
  | .vuint _ => rfl
  | .vfloat _ => rfl
  | .vbool _ => rfl
  | .vcoll _ => rfl
  | .vnil => rfl
  | .vptr v => by
    simp only [isEmpty, specLeavesEmpty]
    exact isEmpty_eq_specLeavesEmpty v
  | .vstruct fs => by
    simp only [isEmpty, specLeavesEmpty]
    exact fieldsEmpty_eq_specFieldsLeavesEmpty fs

/-- Field-list version of `isEmpty_eq_specLeavesEmpty`. -/
theorem fieldsEmpty_eq_specFieldsLeavesEmpty :
    ∀ fs : Fields, fieldsEmpty fs = specFieldsLeavesEmpty fs
  | .nil => rfl
  | .cons _ _ v rest => by
    simp only [fieldsEmpty, specFieldsLeavesEmpty]
    rw [isEmpty_eq_specLeavesEmpty v, fieldsEmpty_eq_specFieldsLeavesEmpty rest]

end

mutual

/-- A value with a boolean field among its descendants is never empty. -/
theorem hasBool_not_empty : ∀ v : GoValue, hasBool v = true → isEmpty v = false
  | .vbool _ => fun _ => rfl
  | .vptr v => fun h => by
    simp only [isEmpty]
    exact hasBool_not_empty v (by simpa [hasBool] using h)
  | .vstruct fs => fun h => by
    simp only [isEmpty]
    exact fieldsHaveBool_not_empty fs (by simpa [hasBool] using h)
  | .vstr _ => fun h => by simp [hasBool] at h
  | .vint _ => fun h => by simp [hasBool] at h
  | .vuint _ => fun h => by simp [hasBool] at h
  | .vfloat _ => fun h => by simp [hasBool] at h
  | .vcoll _ => fun h => by simp [hasBool] at h
  | .vnil => fun h => by simp [hasBool] at h

/-- Field-list version of `hasBool_not_empty`. -/
theorem fieldsHaveBool_not_empty :
    ∀ fs : Fields, fieldsHaveBool fs = true → fieldsEmpty fs = false
  | .nil => fun h => by simp [fieldsHaveBool] at h
  | .cons _ _ v rest => fun h => by
    simp only [fieldsHaveBool, Bool.or_eq_true] at h
    simp only [fieldsEmpty, Bool.and_eq_false_iff]
    cases h with
    | inl h1 => exact Or.inl (hasBool_not_empty v h1)
    | inr h2 => exact Or.inr (fieldsHaveBool_not_empty rest h2)

end

/-- Counterexample to claim C1 as stated: in the tree `{S: {B: ""}}` with
`S` a required by-value record and `B` its required text child, the record
`S` is fully empty, hence absent, so `B` is unreachable and no reachable
required leaf is default — yet validation fails, naming `S`. -/
theorem claim_C1_counterexample :
    reachableDefaultLeaves
        (.cons "S" false (.vstruct (.cons "B" false (.vstr "") .nil)) .nil) = []
  ∧ validateConfig
        (.vptr (.vstruct (.cons "S" false (.vstruct (.cons "B" false (.vstr "") .nil)) .nil)))
      = .error "missing required config item: S" :=
  ⟨by decide, by rfl⟩

/-- Claim C1 (amended): for every configuration tree in which every reachable
required field — leaf, nested record, or reference alike — is non-empty under
the emptiness predicate (no reachable violation at all), `validateConfig` on
a pointer to that tree returns success. -/
theorem claim_C1_amended (fs : Fields) (h : reachableViolations fs = []) :
    validateConfig (.vptr (.vstruct fs)) = .ok () := by
  show validateStruct fs = .ok ()
  exact (validateStruct_ok_iff fs).mpr h

theorem claim_C1_witness :
    reachableViolations
        (.cons "Str" false (.vstr "x")
          (.cons "Sect" false (.vstruct (.cons "N" false (.vint 3) .nil)) .nil)) = []
  ∧ validateConfig
        (.vptr (.vstruct (.cons "Str" false (.vstr "x")
          (.cons "Sect" false (.vstruct (.cons "N" false (.vint 3) .nil)) .nil)))) = .ok () :=
  ⟨by decide, claim_C1_amended _ (by decide)⟩

/-- Counterexample to claim C2 as stated: a non-null reference to a record
whose fields are all empty is itself classified empty by `isEmpty`
(`v.IsNil() || isEmpty(v.Elem())` recurses into the pointee), contradicting
"a non-null reference is never considered empty, regardless of the contents".
-/
theorem claim_C2_counterexample :
    isEmpty (.vptr (.vstruct (.cons "S" false (.vstr "") .nil))) = true := by decide

/-- Claim C2 (amended): a reference field is empty iff it is null or the
value it points to is itself empty (for a record pointee: recursively fully
empty); only presence for recursion-gating (`isStructPresent`) is plain
non-nullness. -/
theorem claim_C2_amended :
    isEmpty .vnil = true
  ∧ (∀ v : GoValue, isEmpty (.vptr v) = isEmpty v)
  ∧ isStructPresent .vnil = false
  ∧ (∀ v : GoValue, isStructPresent (.vptr v) = true) :=
  ⟨rfl, fun _ => rfl, rfl, fun _ => rfl⟩

/-- Counterexample to claim C3 as stated: in
`{A (optional): {B: ""}, C: "x"}`, the required leaf `B` is the only
required leaf holding its default and every required reachable field is
non-default, yet validation succeeds instead of failing and naming `B`: the
optional section `A` is fully empty, hence absent, and `B` is never
visited. -/
theorem claim_C3_counterexample :
    defaultRequiredLeaves
        (.cons "A" true (.vstruct (.cons "B" false (.vstr "") .nil))
          (.cons "C" false (.vstr "x") .nil)) = ["B"]
  ∧ reachableViolations
        (.cons "A" true (.vstruct (.cons "B" false (.vstr "") .nil))
          (.cons "C" false (.vstr "x") .nil)) = []
  ∧ validateConfig
        (.vptr (.vstruct (.cons "A" true (.vstruct (.cons "B" false (.vstr "") .nil))
          (.cons "C" false (.vstr "x") .nil)))) = .ok () :=
  ⟨by decide, by decide, by rfl⟩

/-- Claim C3 (amended): the validator reports exactly the first violation of
the depth-first, pre-order, declaration-order traversal (no accumulation);
in particular, when exactly one reachable required field is empty — e.g. a
lone defaulted reachable required leaf — validation fails and names it. -/
theorem claim_C3_amended :
    (∀ fs : Fields, validateStruct fs = report (reachableViolations fs))
  ∧ (∀ (fs : Fields) (n : String), reachableViolations fs = [n] →
      validateConfig (.vptr (.vstruct fs))
        = .error ("missing required config item: " ++ n)) := by
  refine ⟨validateStruct_eq_report, fun fs n h => ?_⟩
  show validateStruct fs = _
  rw [validateStruct_eq_report, h]
  rfl

theorem claim_C3_witness :
    reachableViolations
        (.cons "Top" false (.vstr "x")
          (.cons "Sect" false
            (.vstruct (.cons "B" false (.vstr "") (.cons "N" false (.vint 5) .nil)))
            .nil)) = ["B"]
  ∧ validateConfig
        (.vptr (.vstruct (.cons "Top" false (.vstr "x")
          (.cons "Sect" false
            (.vstruct (.cons "B" false (.vstr "") (.cons "N" false (.vint 5) .nil)))
            .nil))))
      = .error ("missing required config item: " ++ "B") :=
  ⟨by decide, claim_C3_amended.2 _ "B" (by decide)⟩

/-- Claim C4: an optional (omitempty) reference to a nested record is skipped
entirely, descendants included, when null; when non-null its pointee's fields
are validated exactly as a required section's would be, so an empty required
first child makes the whole validation fail naming that child. -/
theorem claim_C4 :
    (∀ (name : String) (rest : Fields),
      validateStruct (.cons name true .vnil rest) = validateStruct rest)
  ∧ (∀ (name : String) (fs rest : Fields),
      validateStruct (.cons name true (.vptr (.vstruct fs)) rest)
        = (validateStruct fs).bind fun _ => validateStruct rest)
  ∧ (∀ (name cname : String) (cv : GoValue) (crest rest : Fields),
      isEmpty cv = true →
      validateStruct
          (.cons name true (.vptr (.vstruct (.cons cname false cv crest))) rest)
        = .error ("missing required config item: " ++ cname)) := by
  refine ⟨validateStruct_cons_omitempty_vnil, validateStruct_cons_omitempty_ptr, ?_⟩
  intro name cname cv crest rest h
  rw [validateStruct_cons_omitempty_ptr]
  have hc : validateStruct (.cons cname false cv crest)
      = .error ("missing required config item: " ++ cname) := by
    simp only [validateStruct, Bool.not_false, Bool.true_and, h, if_true]
  rw [hc]
  rfl

theorem claim_C4_witness :
    isEmpty (.vstr "") = true
  ∧ validateStruct
        (.cons "S3" true (.vptr (.vstruct (.cons "Bucket" false (.vstr "") .nil))) .nil)
      = .error ("missing required config item: " ++ "Bucket") :=
  ⟨by decide, claim_C4.2.2 "S3" "Bucket" _ _ _ (by decide)⟩

/-- Claim C5: a by-value nested record is empty iff every descendant leaf
field is itself empty, recursively; and an optional (omitempty) by-value
record that is empty is skipped entirely — no violation is reported for any
descendant. -/
theorem claim_C5 :
    (∀ fs : Fields, isEmpty (.vstruct fs) = specFieldsLeavesEmpty fs)
  ∧ (∀ (name : String) (fs rest : Fields), isEmpty (.vstruct fs) = true →
      validateStruct (.cons name true (.vstruct fs) rest) = validateStruct rest) := by
  constructor
  · intro fs
    rw [isEmpty_eq_specLeavesEmpty]
    rfl
  · intro name fs rest h
    simp only [validateStruct, Bool.not_true, Bool.false_and, Bool.false_eq_true,
      if_false, validateNested, isStructPresent, h]

theorem claim_C5_witness :
    isEmpty (.vstruct (.cons "Required" false (.vstr "") .nil)) = true
  ∧ validateStruct
        (.cons "Nested" true (.vstruct (.cons "Required" false (.vstr "") .nil))
          (.cons "Str" false (.vstr "x") .nil))
      = validateStruct (.cons "Str" false (.vstr "x") .nil) :=
  ⟨by decide, claim_C5.2 "Nested" _ _ (by decide)⟩

/-- Claim C6: a boolean field, whatever its value and tag, is never empty and
never produces a violation at its own level: validating it reduces to
validating the remaining fields. -/
theorem claim_C6 :
    (∀ b : Bool, isEmpty (.vbool b) = false)
  ∧ (∀ (name : String) (omitempty b : Bool) (rest : Fields),
      validateStruct (.cons name omitempty (.vbool b) rest) = validateStruct rest) := by
  refine ⟨fun _ => rfl, fun name om b rest => ?_⟩
  simp only [validateStruct, isEmpty, Bool.and_false, Bool.false_eq_true, if_false,
    validateNested]

/-- Claim C7: any argument that is not a pointer to a struct makes
`validateConfig` return the usage error, and that message is distinct from
every field-naming error `validateStruct` can produce. -/
theorem claim_C7 :
    (∀ v : GoValue, (∀ fs : Fields, v ≠ .vptr (.vstruct fs)) →
      validateConfig v
        = .error "expected a pointer to a struct, please ensure the input is a struct pointer")
  ∧ (∀ (fs : Fields) (e : String), validateStruct fs = .error e →
      e ≠ "expected a pointer to a struct, please ensure the input is a struct pointer") := by
  constructor
  · intro v hv
    cases v with
    | vptr w =>
      cases w with
      | vstruct fs => exact absurd rfl (hv fs)
      | _ => rfl
    | _ => rfl
  · intro fs e h
    obtain ⟨n, _, rfl⟩ := validateStruct_error_format fs e h
    apply ne_of_data_ne_at _ _ 0
    rw [wrapped_get _ _ 0 (by decide)]
    decide

theorem claim_C7_witness :
    validateConfig (.vstruct .nil)
      = .error "expected a pointer to a struct, please ensure the input is a struct pointer" :=
  claim_C7.1 (.vstruct .nil) (fun _ h => GoValue.noConfusion h)

/-- Claim C8: one call to the entry point has exactly one of four outcomes —
source-acquisition error, deserialization error, validation error, or
success — each error wrapped with its stage prefix; a source-acquisition
failure preempts everything else, and the three wrapped messages can never
coincide across stages. -/
theorem claim_C8 :
    (∀ (e : String) (d : Except String GoValue),
      loadConfig (.error e) d = .error ("failed to load config file: " ++ e))
  ∧ (∀ e : String,
      loadConfig (.ok ()) (.error e) = .error ("failed to decode config file: " ++ e))
  ∧ (∀ (cfg : GoValue) (e : String), validateConfig cfg = .error e →
      loadConfig (.ok ()) (.ok cfg) = .error ("failed to load the config: " ++ e))
  ∧ (∀ cfg : GoValue, validateConfig cfg = .ok () →
      loadConfig (.ok ()) (.ok cfg) = .ok ())
  ∧ (∀ a b : String,
      "failed to load config file: " ++ a ≠ "failed to decode config file: " ++ b)
  ∧ (∀ a b : String,
      "failed to load config file: " ++ a ≠ "failed to load the config: " ++ b)
  ∧ (∀ a b : String,
      "failed to decode config file: " ++ a ≠ "failed to load the config: " ++ b) := by
  refine ⟨fun _ _ => rfl, fun _ => rfl, ?_, ?_, ?_, ?_, ?_⟩
  · intro cfg e h
    simp only [loadConfig, h]
  · intro cfg h
    simp only [loadConfig, h]
  · intro a b
    apply ne_of_data_ne_at _ _ 10
    rw [wrapped_get _ _ 10 (by decide), wrapped_get _ _ 10 (by decide)]
    decide
  · intro a b
    apply ne_of_data_ne_at _ _ 15
    rw [wrapped_get _ _ 15 (by decide), wrapped_get _ _ 15 (by decide)]
    decide
  · intro a b
    apply ne_of_data_ne_at _ _ 10
    rw [wrapped_get _ _ 10 (by decide), wrapped_get _ _ 10 (by decide)]
    decide

theorem claim_C8_witness :
    loadConfig (.ok ()) (.ok (.vptr (.vstruct (.cons "S" false (.vstr "x") .nil)))) = .ok () :=
  claim_C8.2.2.2.1 _ (by rfl)

/-- Claim C9: a by-value record with a boolean field anywhere among its
descendants is never empty, hence always present; as an omitempty by-value
section it is therefore always recursed into, validating its required
children even when the whole section decoded to zero values. -/
theorem claim_C9 (fs : Fields) (h : hasBool (.vstruct fs) = true) :
    isEmpty (.vstruct fs) = false
  ∧ isStructPresent (.vstruct fs) = true
  ∧ (∀ (name : String) (rest : Fields),
      validateStruct (.cons name true (.vstruct fs) rest)
        = (validateStruct fs).bind fun _ => validateStruct rest) := by
  have he : isEmpty (.vstruct fs) = false := hasBool_not_empty _ h
  have hp : isStructPresent (.vstruct fs) = true := by
    simp only [isStructPresent, he]
    rfl
  refine ⟨he, hp, fun name rest => ?_⟩
  simp only [validateStruct, Bool.not_true, Bool.false_and, Bool.false_eq_true, if_false,
    validateNested, hp, if_true]
  cases hv : validateStruct fs <;> simp [Except.bind]

theorem claim_C9_witness :
    hasBool (.vstruct (.cons "Enabled" false (.vbool false)
        (.cons "Req" false (.vstr "") .nil))) = true
  ∧ validateStruct
        (.cons "Sect" true
          (.vstruct (.cons "Enabled" false (.vbool false)
            (.cons "Req" false (.vstr "") .nil)))
          .nil)
      = (validateStruct (.cons "Enabled" false (.vbool false)
          (.cons "Req" false (.vstr "") .nil))).bind fun _ => validateStruct .nil :=
  ⟨by decide, (claim_C9 _ (by decide)).2.2 "Sect" .nil⟩

/-- Claim C10: a pointer to a primitive is empty iff it is null or the
pointed-to value equals its type's default; hence a required such pointer
holding the zero value (e.g. a pointer to the integer 0) fails validation
naming the field. -/
theorem claim_C10 (v : GoValue) (hp : isPrimitive v = true) :
    isEmpty (.vptr v) = primDefault v
  ∧ isEmpty .vnil = true
  ∧ (∀ (name : String) (rest : Fields), primDefault v = true →
      validateStruct (.cons name false (.vptr v) rest)
        = .error ("missing required config item: " ++ name)) := by
  have hpd : isEmpty v = primDefault v := by
    cases v with
    | vstr s => rfl
    | vint n => rfl
    | vuint n => rfl
    | vfloat x => rfl
    | vcoll len => rfl
    | _ => exact absurd hp (by simp [isPrimitive])
  refine ⟨hpd, rfl, fun name rest hd => ?_⟩
  have he : isEmpty (.vptr v) = true := by
    simp only [isEmpty]
    rw [hpd]
    exact hd
  simp only [validateStruct, Bool.not_false, Bool.true_and, he, if_true]

theorem claim_C10_witness :
    isPrimitive (.vint 0) = true
  ∧ validateStruct (.cons "Count" false (.vptr (.vint 0)) .nil)
      = .error ("missing required config item: " ++ "Count") :=
  ⟨by decide, (claim_C10 (.vint 0) (by decide)).2.2 "Count" .nil (by decide)⟩

end YamlConfig
